import Mathlib

/-!
Shallow embedding of the multi-agent stock-analysis pipeline
(`orchestrator_agent.py`, `stock_tools.py`) and proofs about its
query classifier, routing/synthesis logic, workflow history and
technical-analysis arithmetic.

Python strings are modelled as Lean `String`, Python floats as `ℚ`
(with `Option ℚ` standing for possibly-NaN values where pandas can
produce NaN), Python dict results as Lean structures/inductives, and
the external sub-agent `run` calls as function parameters
`String → AgentResult` (per the agent contract they never raise and
always return an output text plus a success flag).
-/

/-! ### Query classifier (`OrchestratorAgent._assess_complexity`) -/

/-- Python's `needle in hay` substring test, on the character list of a
string: `needle` is a prefix of some suffix of `hay`. -/
def subListAt (needle : List Char) : List Char → Bool
  | [] => needle.isEmpty
  | c :: rest => needle.isPrefixOf (c :: rest) || subListAt needle rest

/-- `needle in hay` on strings. -/
def strContains (hay needle : String) : Bool :=
  subListAt needle.data hay.data

/-- Python `str.lower()`, character by character. -/
def lowerStr (s : String) : String :=
  ⟨s.data.map Char.toLower⟩

/-- The fixed `simple_keywords` list of `_assess_complexity`. -/
def simple_keywords : List String :=
  ["price", "current price", "stock price", "basic info",
   "company info", "simple", "quick", "basic"]

/-- The fixed `complex_keywords` list of `_assess_complexity`. -/
def complex_keywords : List String :=
  ["analysis", "comprehensive", "strategic", "recommendation",
   "investment thesis", "risk assessment", "portfolio", "sector",
   "market outlook", "comparative", "detailed"]

/-- `simple_count`: number of simple keywords occurring in the
lower-cased query (`sum(1 for keyword in simple_keywords if keyword in
query_lower)`). -/
def simpleCount (query : String) : Nat :=
  simple_keywords.countP (fun k => strContains (lowerStr query) k)

/-- `complex_count`, analogously. -/
def complexCount (query : String) : Nat :=
  complex_keywords.countP (fun k => strContains (lowerStr query) k)

/-- The three routing labels returned by `_assess_complexity`. -/
inductive Complexity where
  | simple
  | complex
  | multiStep
deriving DecidableEq, Repr

/-- `OrchestratorAgent._assess_complexity`: lower-case the query, count
keyword hits of each list, then branch. -/
def assessComplexity (query : String) : Complexity :=
  if complexCount query > simpleCount query then .complex
  else if simpleCount query > 0 ∧ complexCount query = 0 then .simple
  else .multiStep

/-! ### Orchestrator (`OrchestratorAgent.orchestrate_analysis` and helpers) -/

/-- The part of a sub-agent invocation result the orchestrator reads
(`result['output']`, `result['success']`). -/
structure AgentResult where
  output : String
  success : Bool
deriving DecidableEq, Repr

/-- The dict returned by the orchestration entry points: either the full
result dict (agent/input/output/sub-agent(s)/success) or the bare
`{"error": ...}` dict returned when a required sub-agent is `None`. -/
inductive OrchResult where
  | ok (agent input output : String) (subAgents : List String) (success : Bool)
  | errDict (error : String)
deriving DecidableEq, Repr

/-- Whether a result dict carries a success flag and an output text
(the `ok` shape); the `{"error": ...}` dict carries neither. -/
def hasSuccessAndOutput : OrchResult → Bool
  | .ok _ _ _ _ _ => true
  | .errDict _ => false

/-- The fixed synthesis paragraph and disclaimer block appended by
`_synthesize_results`. -/
def synthesisTail : String :=
  "📋 SYNTHESIS & RECOMMENDATIONS:\n" ++
  "Based on the comprehensive analysis above, here are the key takeaways:\n" ++
  "- Data accuracy verified by Junior Agent\n" ++
  "- Strategic insights provided by Master Agent\n" ++
  "- Combined analysis provides balanced perspective\n\n" ++
  "⚠️ IMPORTANT NOTES:\n" ++
  "- This analysis is for informational purposes only\n" ++
  "- Always conduct your own research before making investment decisions\n" ++
  "- Consider consulting with financial professionals\n" ++
  "- Past performance does not guarantee future results"

/-- The Junior section header + body of the synthesis, emitted iff the
Junior call succeeded. -/
def juniorSection (jr : AgentResult) : String :=
  "📊 DATA GATHERING (Junior Agent):\n" ++ jr.output ++ "\n\n"

/-- The Master section header + body of the synthesis, emitted iff the
Master call succeeded. -/
def masterSection (mr : AgentResult) : String :=
  "🎯 ADVANCED ANALYSIS (Master Agent):\n" ++ mr.output ++ "\n\n"

/-- `OrchestratorAgent._synthesize_results`. -/
def synthesizeResults (jr mr : AgentResult) (originalQuery : String) : String :=
  ("🤖 ORCHESTRATED ANALYSIS: " ++ originalQuery ++ "\n\n") ++
  (if jr.success then juniorSection jr else "") ++
  (if mr.success then masterSection mr else "") ++
  synthesisTail

/-- `OrchestratorAgent._handle_simple_query`. A sub-agent is an
`Option (String → AgentResult)`: `none` models `self.junior_agent is None`. -/
def handleSimpleQuery (junior : Option (String → AgentResult))
    (query : String) : OrchResult :=
  match junior with
  | none => .errDict "Junior agent not initialized"
  | some j =>
    let result := j query
    .ok "Orchestrator" query
      ("🤖 JUNIOR AGENT ANALYSIS:\n\n" ++ result.output)
      ["Junior"] result.success

/-- `OrchestratorAgent._handle_complex_query`. -/
def handleComplexQuery (master : Option (String → AgentResult))
    (query : String) : OrchResult :=
  match master with
  | none => .errDict "Master agent not initialized"
  | some m =>
    let result := m query
    .ok "Orchestrator" query
      ("🎯 MASTER AGENT ANALYSIS:\n\n" ++ result.output)
      ["Master"] result.success

/-- `OrchestratorAgent._handle_multi_step_query`: run Junior on the
query, run Master on the same query, synthesize, AND the success flags. -/
def handleMultiStepQuery (junior master : Option (String → AgentResult))
    (query : String) : OrchResult :=
  match junior, master with
  | some j, some m =>
    let juniorResult := j query
    let masterResult := m query
    .ok "Orchestrator" query
      (synthesizeResults juniorResult masterResult query)
      ["Junior", "Master"]
      (juniorResult.success && masterResult.success)
  | _, _ => .errDict "Agents not initialized"

/-- `OrchestratorAgent.orchestrate_analysis`: classify, then route.  The
surrounding `try/except` of the Python is unreachable in this model: the
classifier is pure and sub-agent `run` never raises past its boundary, so
no branch of the body raises. -/
def orchestrateAnalysis (junior master : Option (String → AgentResult))
    (query : String) : OrchResult :=
  match assessComplexity query with
  | .simple => handleSimpleQuery junior query
  | .complex => handleComplexQuery master query
  | .multiStep => handleMultiStepQuery junior master query

/-- The orchestrator's mutable state: `self.workflow_history`. -/
structure OrchestratorState where
  workflowHistory : List OrchResult
deriving DecidableEq, Repr

/-- `orchestrate_analysis` as a state transformer.  Neither
`orchestrate_analysis` (lines 90-109) nor any of its callees contains a
write to `self.workflow_history`, so the state passes through unchanged. -/
def orchestrateAnalysisState (junior master : Option (String → AgentResult))
    (query : String) (s : OrchestratorState) : OrchResult × OrchestratorState :=
  (orchestrateAnalysis junior master query, s)

/-- `OrchestratorAgent.get_workflow_history`. -/
def getWorkflowHistory (s : OrchestratorState) : List OrchResult :=
  s.workflowHistory

/-- `OrchestratorAgent.clear_workflow_history`: `self.workflow_history = []`. -/
def clearWorkflowHistory (_s : OrchestratorState) : OrchestratorState :=
  { workflowHistory := [] }

/-! ### Stock tools (`stock_tools.py`) -/

/-- Python `str.upper()`, character by character. -/
def upperStr (s : String) : String :=
  ⟨s.data.map Char.toUpper⟩

/-- One row of the yfinance price-history DataFrame, restricted to the
columns the tools read (`High`, `Low`, `Close`, `Volume`); floats are
modelled as `ℚ`. -/
structure Row where
  high : ℚ
  low : ℚ
  close : ℚ
  volume : ℚ
deriving DecidableEq, Repr

/-- pandas `Series.rolling(window=w).mean()` read at the last row: NaN
(`none`) unless at least `w` observations exist, else the arithmetic mean
of the trailing `w` values. -/
def lastRollingMean (w : Nat) (closes : List ℚ) : Option ℚ :=
  if closes.length < w ∨ w = 0 then none
  else some ((closes.drop (closes.length - w)).sum / w)

/-- Python float `a > b` where either operand may be NaN (`none`):
any comparison with NaN is `False`. -/
def nanGt : Option ℚ → Option ℚ → Bool
  | some a, some b => decide (a > b)
  | _, _ => false

/-- Python float `a < b` with NaN operands, as in `nanGt`. -/
def nanLt : Option ℚ → Option ℚ → Bool
  | some a, some b => decide (a < b)
  | _, _ => false

/-- The trend branch of `StockAnalysisTool._run` (lines 132-137): the MA
operands may be NaN when the series is shorter than the window. -/
def trendLabel (currentPrice : ℚ) (ma20 ma50 : Option ℚ) : String :=
  if nanGt (some currentPrice) ma20 && nanGt ma20 ma50 then "Bullish"
  else if nanLt (some currentPrice) ma20 && nanLt ma20 ma50 then "Bearish"
  else "Mixed/Neutral"

/-- pandas `Series.pct_change()` on the close column with the leading NaN
already dropped (as the subsequent `std(skipna=True)` does): successive
differences divided by the earlier value. -/
def pctChanges (closes : List ℚ) : List ℚ :=
  (closes.zip closes.tail).map (fun p => (p.2 - p.1) / p.1)

/-- pandas sample variance (`Series.std()` squared, default `ddof=1`):
NaN (`none`) with fewer than two values, else the sum of squared
deviations from the mean divided by `n - 1`. -/
def sampleVar (l : List ℚ) : Option ℚ :=
  if l.length < 2 then none
  else
    let m := l.sum / l.length
    some ((l.map (fun x => (x - m) ^ 2)).sum / ((l.length : ℚ) - 1))

/-- The square of the volatility figure
`hist['Close'].pct_change().std() * 100` (line 140), kept squared so the
value stays in `ℚ`: the reported volatility is the square root of this,
so it is 0 (resp. NaN) exactly when this is `some 0` (resp. `none`). -/
def volatilitySq (closes : List ℚ) : Option ℚ :=
  (sampleVar (pctChanges closes)).map (fun v => v * 10000)

/-- pandas `.tail(n)`: the last `n` rows (all rows when the frame is
shorter). -/
def tailRows (n : Nat) (l : List Row) : List Row :=
  l.drop (l.length - n)

/-- pandas `.min()` over a column: NaN on an empty frame, else a fold of
`min`. -/
def colMin : List ℚ → Option ℚ
  | [] => none
  | x :: xs => some (xs.foldl min x)

/-- pandas `.max()` over a column, as in `colMin`. -/
def colMax : List ℚ → Option ℚ
  | [] => none
  | x :: xs => some (xs.foldl max x)

/-- `support = hist['Low'].tail(20).min()` (line 144). -/
def support (hist : List Row) : Option ℚ :=
  colMin ((tailRows 20 hist).map (·.low))

/-- `resistance = hist['High'].tail(20).max()` (line 145). -/
def resistance (hist : List Row) : Option ℚ :=
  colMax ((tailRows 20 hist).map (·.high))

/-- The quantities `StockAnalysisTool._run` computes and formats into its
analysis text (lines 117-147), in the order they appear there. -/
structure AnalysisReport where
  currentPrice : ℚ
  ma20 : Option ℚ
  ma50 : Option ℚ
  trend : String
  volatilitySq : Option ℚ
  support : Option ℚ
  resistance : Option ℚ
deriving DecidableEq, Repr

/-- The analysis computation of `StockAnalysisTool._run` on a non-empty
history `r :: rs`: current price and MAs are read at the last row
(`hist.iloc[-1]`), volatility over the whole series, support/resistance
over the trailing 20 rows. -/
def analysisReport (r : Row) (rs : List Row) : AnalysisReport :=
  let closes := (r :: rs).map (·.close)
  let currentPrice := ((r :: rs).getLast (List.cons_ne_nil r rs)).close
  let ma20 := lastRollingMean 20 closes
  let ma50 := lastRollingMean 50 closes
  { currentPrice := currentPrice
    ma20 := ma20
    ma50 := ma50
    trend := trendLabel currentPrice ma20 ma50
    volatilitySq := volatilitySq closes
    support := support (r :: rs)
    resistance := resistance (r :: rs) }

/-- The possible outcomes of `StockAnalysisTool._run`: the caught-exception
message (lines 150-151), the empty-frame message (lines 113-114), or the
computed report. -/
inductive AnalyzeOutcome where
  | errorCaught (msg : String)
  | noData (msg : String)
  | report (rep : AnalysisReport)
deriving DecidableEq, Repr

/-- `StockAnalysisTool._run`.  The data fetch and any field access may
raise inside the `try` block; that failure source is modelled as an
`Except String` input.  An exception is caught and rendered as
`"Error analyzing stock {symbol}: {e}"`; an empty frame yields
`"No data available for analysis of {symbol.upper()}"`; otherwise the
report is produced.  The function is total: no fault propagates. -/
def analyzeStock (symbol : String) (fetch : Except String (List Row)) : AnalyzeOutcome :=
  match fetch with
  | .error e => .errorCaught ("Error analyzing stock " ++ symbol ++ ": " ++ e)
  | .ok [] => .noData ("No data available for analysis of " ++ upperStr symbol)
  | .ok (r :: rs) => .report (analysisReport r rs)

/-- The quantities `StockHistoryTool._run` computes and formats into its
history text (lines 87-96), in the order they appear there. -/
structure HistoryReport where
  latestClose : ℚ
  latestVolume : ℚ
  periodHigh : ℚ
  periodLow : ℚ
  priceChange : ℚ
  percentChange : ℚ
deriving DecidableEq, Repr

/-- The computation of `StockHistoryTool._run` on a non-empty history
`r :: rs`: `latest = hist.iloc[-1]`, `earliest = hist.iloc[0]`, period
high/low over the whole series, price change `latest.Close -
earliest.Close` and percent change `(latest.Close - earliest.Close) /
earliest.Close * 100`. -/
def historyReport (r : Row) (rs : List Row) : HistoryReport :=
  let latest := (r :: rs).getLast (List.cons_ne_nil r rs)
  { latestClose := latest.close
    latestVolume := latest.volume
    periodHigh := (rs.map (·.high)).foldl max r.high
    periodLow := (rs.map (·.low)).foldl min r.low
    priceChange := latest.close - r.close
    percentChange := (latest.close - r.close) / r.close * 100 }

/-! ### Helper lemmas on `List.foldl min` / `List.foldl max` -/

/-- A `min`-fold is bounded by its initial accumulator. -/
theorem foldl_min_le_init (l : List ℚ) (x : ℚ) : l.foldl min x ≤ x := by
  induction l generalizing x with
  | nil => simp
  | cons a t ih => exact le_trans (ih (min x a)) (min_le_left x a)

/-- A `min`-fold is bounded by every list element. -/
theorem foldl_min_le_mem {y : ℚ} (l : List ℚ) (x : ℚ) (hy : y ∈ l) : l.foldl min x ≤ y := by
  induction l generalizing x with
  | nil => cases hy
  | cons a t ih =>
    rcases List.mem_cons.mp hy with h | h
    · rw [h]
      exact le_trans (foldl_min_le_init t (min x a)) (min_le_right x a)
    · exact ih (min x a) h

/-- A `max`-fold dominates its initial accumulator. -/
theorem init_le_foldl_max (l : List ℚ) (x : ℚ) : x ≤ l.foldl max x := by
  induction l generalizing x with
  | nil => simp
  | cons a t ih => exact le_trans (le_max_left x a) (ih (max x a))

/-- A `max`-fold dominates every list element. -/
theorem mem_le_foldl_max {y : ℚ} (l : List ℚ) (x : ℚ) (hy : y ∈ l) : y ≤ l.foldl max x := by
  induction l generalizing x with
  | nil => cases hy
  | cons a t ih =>
    rcases List.mem_cons.mp hy with h | h
    · rw [h]
      exact le_trans (le_max_right x a) (init_le_foldl_max t (max x a))
    · exact ih (max x a) h

/-! ### Claim theorems -/

/-- C1: `_assess_complexity` lower-cases the query and counts the fixed
simple/complex keyword hits; it returns Complex when
`complex_count > simple_count`, Simple when `simple_count > 0` and
`complex_count == 0`, and MultiStep in every remaining case; in particular
`classify("") = MultiStep`, and an equal nonzero tie of the two counts
yields MultiStep. -/
theorem classify_spec (q : String) :
    (complexCount q > simpleCount q → assessComplexity q = .complex)
    ∧ (simpleCount q > 0 ∧ complexCount q = 0 → assessComplexity q = .simple)
    ∧ (¬ complexCount q > simpleCount q ∧ ¬ (simpleCount q > 0 ∧ complexCount q = 0) →
        assessComplexity q = .multiStep)
    ∧ assessComplexity "" = .multiStep
    ∧ (simpleCount q = complexCount q → simpleCount q ≠ 0 → assessComplexity q = .multiStep) := by
  refine ⟨?_, ?_, ?_, by decide, ?_⟩
  · intro h
    simp [assessComplexity, h]
  · rintro ⟨hs, hc⟩
    have h1 : ¬ complexCount q > simpleCount q := by omega
    simp [assessComplexity, h1, hs, hc]
  · rintro ⟨h1, h2⟩
    simp [assessComplexity, h1, h2]
  · intro h1 h2
    have ha : ¬ complexCount q > simpleCount q := by omega
    have hb : ¬ (simpleCount q > 0 ∧ complexCount q = 0) := by omega
    simp [assessComplexity, ha, hb]

/-- C1 witness: "price analysis" has an equal nonzero tie (one simple hit,
one complex hit) and classifies as MultiStep. -/
theorem classify_spec_witness :
    simpleCount "price analysis" = complexCount "price analysis"
    ∧ simpleCount "price analysis" ≠ 0
    ∧ assessComplexity "price analysis" = .multiStep :=
  ⟨by decide, by decide, (classify_spec "price analysis").2.2.2.2 (by decide) (by decide)⟩

/-- C2: a MultiStep orchestration's aggregate success flag is the AND of
the Junior and Master sub-results' success flags; the synthesis contains
the section of each succeeded sub-agent, and the output of a failed
sub-agent does not enter the synthesis at all (so one failure does not
abort the other's inclusion). -/
theorem multi_step_and_sections (j m : String → AgentResult) (q : String) :
    (handleMultiStepQuery (some j) (some m) q
      = .ok "Orchestrator" q (synthesizeResults (j q) (m q) q) ["Junior", "Master"]
          ((j q).success && (m q).success))
    ∧ ((j q).success = true →
        ∃ a b, synthesizeResults (j q) (m q) q = a ++ juniorSection (j q) ++ b)
    ∧ ((m q).success = true →
        ∃ a b, synthesizeResults (j q) (m q) q = a ++ masterSection (m q) ++ b)
    ∧ (∀ o o', synthesizeResults ⟨o, false⟩ (m q) q = synthesizeResults ⟨o', false⟩ (m q) q)
    ∧ (∀ o o', synthesizeResults (j q) ⟨o, false⟩ q = synthesizeResults (j q) ⟨o', false⟩ q) := by
  refine ⟨rfl, ?_, ?_, fun o o' => rfl, fun o o' => rfl⟩
  · intro h
    refine ⟨"🤖 ORCHESTRATED ANALYSIS: " ++ q ++ "\n\n",
      (if (m q).success then masterSection (m q) else "") ++ synthesisTail, ?_⟩
    simp [synthesizeResults, h, String.append_assoc]
  · intro h
    refine ⟨("🤖 ORCHESTRATED ANALYSIS: " ++ q ++ "\n\n") ++
      (if (j q).success then juniorSection (j q) else ""), synthesisTail, ?_⟩
    simp [synthesizeResults, h, String.append_assoc]

/-- C2 witness: with a succeeding Junior and a failing Master, the
synthesis still contains the Junior section. -/
theorem multi_step_and_sections_witness :
    ∃ a b, synthesizeResults ⟨"J", true⟩ ⟨"M", false⟩ "q"
      = a ++ juniorSection ⟨"J", true⟩ ++ b :=
  (multi_step_and_sections (fun _ => ⟨"J", true⟩) (fun _ => ⟨"M", false⟩) "q").2.1 rfl

/-- C3 counterexample: orchestrating the simple query "price" with an
uninitialized Junior agent returns the bare error dict, which carries
neither a success flag nor an output field — so the result is not of the
success-flag-plus-output shape the claim asserts for every call. -/
theorem orchestrate_uninitialized_counterexample :
    orchestrateAnalysis none (some fun _ => (⟨"M", true⟩ : AgentResult)) "price"
      = .errDict "Junior agent not initialized"
    ∧ hasSuccessAndOutput
        (orchestrateAnalysis none (some fun _ => (⟨"M", true⟩ : AgentResult)) "price") = false :=
  ⟨rfl, rfl⟩

/-- C3 amended: `orchestrate_analysis` is total (it never raises — the
model is a total function); with both sub-agents initialized every result
carries a success flag and output text, while with uninitialized
sub-agents it returns the tagged `{"error": ...}` dict (an error message
without a success flag or output text) rather than raising. -/
theorem orchestrate_total_shape (j m : String → AgentResult) (q : String) :
    hasSuccessAndOutput (orchestrateAnalysis (some j) (some m) q) = true
    ∧ ∃ msg, orchestrateAnalysis none none q = .errDict msg := by
  rcases h : assessComplexity q with _ | _ | _ <;>
    simp [orchestrateAnalysis, h, handleSimpleQuery, handleComplexQuery,
      handleMultiStepQuery, hasSuccessAndOutput]

/-- C4: trend classification of the triple (current close, MA20, MA50) is
a total three-way partition: Bullish iff close > MA20 > MA50, Bearish iff
close < MA20 < MA50, Mixed/Neutral in every other case, and exact
equality in a comparison falls to Mixed/Neutral. -/
theorem trend_partition (c m20 m50 : ℚ) :
    (trendLabel c (some m20) (some m50) = "Bullish" ↔ c > m20 ∧ m20 > m50)
    ∧ (trendLabel c (some m20) (some m50) = "Bearish" ↔ c < m20 ∧ m20 < m50)
    ∧ (¬ (c > m20 ∧ m20 > m50) → ¬ (c < m20 ∧ m20 < m50) →
        trendLabel c (some m20) (some m50) = "Mixed/Neutral")
    ∧ (c = m20 ∨ m20 = m50 → trendLabel c (some m20) (some m50) = "Mixed/Neutral")
    ∧ (trendLabel c (some m20) (some m50) = "Bullish"
        ∨ trendLabel c (some m20) (some m50) = "Bearish"
        ∨ trendLabel c (some m20) (some m50) = "Mixed/Neutral") := by
  have hsb : ("Bullish" : String) ≠ "Bearish" := by decide
  have hsm : ("Bullish" : String) ≠ "Mixed/Neutral" := by decide
  have hbm : ("Bearish" : String) ≠ "Mixed/Neutral" := by decide
  unfold trendLabel nanGt nanLt
  split_ifs with h1 h2
  · simp only [Bool.and_eq_true, decide_eq_true_iff] at h1
    refine ⟨by simp [h1], ?_, ?_, ?_, Or.inl rfl⟩
    · refine iff_of_false (fun h => hsb h) ?_
      rintro ⟨ha, _⟩
      exact absurd h1.1 (not_lt.mpr ha.le)
    · intro hn _
      exact absurd h1 hn
    · rintro (h | h)
      · subst h; exact absurd h1.1 (lt_irrefl _)
      · subst h; exact absurd h1.2 (lt_irrefl _)
  · simp only [Bool.and_eq_true, decide_eq_true_iff] at h1 h2
    refine ⟨iff_of_false (fun h => hsb h.symm) h1, by simp [h2], ?_, ?_,
      Or.inr (Or.inl rfl)⟩
    · intro _ hn
      exact absurd h2 hn
    · rintro (h | h)
      · subst h; exact absurd h2.1 (lt_irrefl _)
      · subst h; exact absurd h2.2 (lt_irrefl _)
  · simp only [Bool.and_eq_true, decide_eq_true_iff] at h1 h2
    exact ⟨iff_of_false (fun h => hsm h.symm) h1, iff_of_false (fun h => hbm h.symm) h2,
      fun _ _ => rfl, fun _ => rfl, Or.inr (Or.inr rfl)⟩

/-- C4 witness: the all-equal triple classifies as Mixed/Neutral. -/
theorem trend_partition_witness :
    trendLabel 1 (some 1) (some 1) = "Mixed/Neutral" :=
  (trend_partition 1 1 1).2.2.2.1 (Or.inl rfl)

/-- C5: `orchestrate_analysis` routes by the classifier's label: a Simple
query produces the Junior result wrapped with the fixed attribution
header and is independent of the Master agent; a Complex query produces
the Master result wrapped with its header and is independent of the
Junior agent; a MultiStep query applies the Junior agent and the Master
agent to the identical original query (the Junior result is not fed into
the Master's input). -/
theorem orchestrate_routing (j m j' m' : String → AgentResult) (q : String) :
    (assessComplexity q = .simple →
      orchestrateAnalysis (some j) (some m) q
        = .ok "Orchestrator" q ("🤖 JUNIOR AGENT ANALYSIS:\n\n" ++ (j q).output)
            ["Junior"] (j q).success
      ∧ orchestrateAnalysis (some j) (some m) q = orchestrateAnalysis (some j) (some m') q)
    ∧ (assessComplexity q = .complex →
      orchestrateAnalysis (some j) (some m) q
        = .ok "Orchestrator" q ("🎯 MASTER AGENT ANALYSIS:\n\n" ++ (m q).output)
            ["Master"] (m q).success
      ∧ orchestrateAnalysis (some j) (some m) q = orchestrateAnalysis (some j') (some m) q)
    ∧ (assessComplexity q = .multiStep →
      orchestrateAnalysis (some j) (some m) q
        = .ok "Orchestrator" q (synthesizeResults (j q) (m q) q) ["Junior", "Master"]
            ((j q).success && (m q).success)) := by
  refine ⟨fun h => ?_, fun h => ?_, fun h => ?_⟩ <;>
    unfold orchestrateAnalysis <;> rw [h]
  · exact ⟨rfl, rfl⟩
  · exact ⟨rfl, rfl⟩
  · rfl

/-- C5 witness: the query "price" classifies Simple and yields the
Junior result under the fixed attribution header. -/
theorem orchestrate_routing_witness :
    orchestrateAnalysis (some fun _ => (⟨"J", true⟩ : AgentResult))
        (some fun _ => (⟨"M", true⟩ : AgentResult)) "price"
      = .ok "Orchestrator" "price" ("🤖 JUNIOR AGENT ANALYSIS:\n\n" ++ "J") ["Junior"] true :=
  ((orchestrate_routing (fun _ => ⟨"J", true⟩) (fun _ => ⟨"M", true⟩)
      (fun _ => ⟨"J2", true⟩) (fun _ => ⟨"M2", true⟩) "price").1 (by decide)).1

/-- C6 counterexample: an `orchestrate_analysis` call starting from the
empty history leaves the history empty — its length afterwards is 0, not
the 1 entry the claim asserts is appended. -/
theorem history_counterexample :
    getWorkflowHistory (orchestrateAnalysisState (some fun _ => (⟨"J", true⟩ : AgentResult))
        (some fun _ => (⟨"M", true⟩ : AgentResult)) "price" ⟨[]⟩).2 = []
    ∧ ([] : List OrchResult).length ≠ 1 :=
  ⟨rfl, by decide⟩

/-- C6 amended: `orchestrate_analysis` appends nothing to
WorkflowHistory (no recording is implemented); the history changes only
through the explicit clear operation, which empties it to length 0. -/
theorem history_unchanged (junior master : Option (String → AgentResult)) (q : String)
    (s : OrchestratorState) :
    getWorkflowHistory (orchestrateAnalysisState junior master q s).2 = getWorkflowHistory s
    ∧ getWorkflowHistory (clearWorkflowHistory s) = []
    ∧ (getWorkflowHistory (clearWorkflowHistory s)).length = 0 :=
  ⟨rfl, rfl, rfl⟩

/-- C7 counterexample: a constant-close series with exactly two
observations has a single percentage change, whose sample standard
deviation (`ddof=1`) is NaN (`none`), not 0 as the claim asserts for
every constant series with at least two observations. -/
theorem volatility_two_point_counterexample :
    (analysisReport ⟨100, 100, 100, 0⟩ [⟨100, 100, 100, 0⟩]).volatilitySq = none
    ∧ (analysisReport ⟨100, 100, 100, 0⟩ [⟨100, 100, 100, 0⟩]).volatilitySq ≠ some 0 := by
  constructor <;> decide

/-- C7 amended: the volatility figure is the sample standard deviation
(denominator n−1 over the n period-over-period changes, not population)
of the percentage changes of the close, as a percentage: every
constant-close series with nonzero close and at least three observations
has volatility 0, and the closes 1, 2, 3 give changes 1 and 1/2 whose
sample variance is 1/8 (denominator 2−1 = 1), i.e. squared volatility
1250 — the population denominator would give 625. -/
theorem volatility_sample_of_changes (n : Nat) (c : ℚ) (hn : 3 ≤ n) (_hc : c ≠ 0) :
    volatilitySq (List.replicate n c) = some 0
    ∧ volatilitySq [1, 2, 3] = some 1250 := by
  constructor
  · have h1 : pctChanges (List.replicate n c) = List.replicate (n - 1) 0 := by
      unfold pctChanges
      rw [List.tail_replicate, List.zip_replicate, List.map_replicate]
      congr 1
      · omega
      · simp
    rw [volatilitySq, h1]
    unfold sampleVar
    rw [List.length_replicate]
    rw [if_neg (by omega : ¬ (n - 1 < 2))]
    simp
  · show (sampleVar (pctChanges [1, 2, 3])).map (fun v => v * 10000) = some 1250
    have hp : pctChanges [1, 2, 3] = [1, 1/2] := by
      unfold pctChanges
      norm_num
    rw [hp]
    unfold sampleVar
    norm_num

/-- C7 witness: a constant series of three closes at 100 has volatility 0,
and the concrete denominator check evaluates to 1250. -/
theorem volatility_sample_witness :
    volatilitySq (List.replicate 3 (100 : ℚ)) = some 0
    ∧ volatilitySq [1, 2, 3] = some 1250 :=
  volatility_sample_of_changes 3 100 (by decide) (by decide)

/-- C8: support is the minimum low and resistance the maximum high over
the trailing 20 rows (all rows when the series is shorter than 20); for a
non-empty series whose every row has low ≤ high, support bounds every
in-window low from below, resistance bounds every in-window high from
above, and support ≤ resistance. -/
theorem support_le_resistance (hist : List Row) (hne : hist ≠ [])
    (hlh : ∀ r ∈ hist, r.low ≤ r.high) :
    (hist.length ≤ 20 → tailRows 20 hist = hist)
    ∧ ∃ s t, support hist = some s ∧ resistance hist = some t
        ∧ (∀ r ∈ tailRows 20 hist, s ≤ r.low ∧ r.high ≤ t)
        ∧ s ≤ t := by
  constructor
  · intro h
    unfold tailRows
    rw [Nat.sub_eq_zero_of_le h, List.drop_zero]
  · have hlen : 0 < hist.length := List.length_pos.mpr hne
    have hwlen : 0 < (tailRows 20 hist).length := by
      unfold tailRows
      rw [List.length_drop]
      omega
    rcases hw : tailRows 20 hist with _ | ⟨a, t⟩
    · rw [hw] at hwlen
      simp at hwlen
    have hsub : ∀ r ∈ tailRows 20 hist, r ∈ hist := fun r hr => List.drop_subset _ hist hr
    refine ⟨(t.map (·.low)).foldl min a.low, (t.map (·.high)).foldl max a.high, ?_, ?_, ?_, ?_⟩
    · unfold support
      rw [hw]
      rfl
    · unfold resistance
      rw [hw]
      rfl
    · intro r hr
      rcases List.mem_cons.mp hr with h | h
      · rw [h]
        exact ⟨foldl_min_le_init _ _, init_le_foldl_max _ _⟩
      · exact ⟨foldl_min_le_mem _ _ (List.mem_map_of_mem _ h),
          mem_le_foldl_max _ _ (List.mem_map_of_mem _ h)⟩
    · have ha : a ∈ hist := hsub a (by rw [hw]; exact List.mem_cons_self a t)
      calc (t.map (·.low)).foldl min a.low ≤ a.low := foldl_min_le_init _ _
        _ ≤ a.high := hlh a ha
        _ ≤ (t.map (·.high)).foldl max a.high := init_le_foldl_max _ _

/-- C8 witness: a one-row series with low 1 and high 5 has support 1,
resistance 5, and support ≤ resistance. -/
theorem support_le_resistance_witness :
    ∃ s t, support [⟨5, 1, 2, 0⟩] = some s ∧ resistance [⟨5, 1, 2, 0⟩] = some t
        ∧ (∀ r ∈ tailRows 20 [⟨5, 1, 2, 0⟩], s ≤ r.low ∧ r.high ≤ t)
        ∧ s ≤ t :=
  (support_le_resistance [⟨5, 1, 2, 0⟩] (by decide) (by decide)).2

/-- C9: analyzing an empty series fails with the no-data message instead
of producing a report, and an exception during fetch/analysis is caught
at the boundary and rendered as an error message that contains the
original symbol; the function is total, so no fault propagates. -/
theorem analyze_error_boundary (symbol e : String) :
    (∃ msg, analyzeStock symbol (Except.error e) = .errorCaught msg
        ∧ ∃ a b, msg = a ++ symbol ++ b)
    ∧ (∃ msg, analyzeStock symbol (Except.ok []) = .noData msg)
    ∧ (∀ rep, analyzeStock symbol (Except.ok []) ≠ .report rep) := by
  refine ⟨⟨"Error analyzing stock " ++ symbol ++ ": " ++ e, rfl,
      "Error analyzing stock ", ": " ++ e, ?_⟩,
    ⟨"No data available for analysis of " ++ upperStr symbol, rfl⟩, ?_⟩
  · rw [String.append_assoc]
  · intro rep h
    simp [analyzeStock] at h

/-- C9 witness: at symbol "AAPL" the empty series yields the no-data
outcome, not a report. -/
theorem analyze_error_boundary_witness :
    analyzeStock "AAPL" (Except.ok [])
      ≠ .report (analysisReport ⟨1, 1, 1, 1⟩ []) :=
  (analyze_error_boundary "AAPL" "boom").2.2 (analysisReport ⟨1, 1, 1, 1⟩ [])

/-- C10 counterexample: two concrete series with identical analysis
reports but different price changes — so the analysis computation
(`StockAnalysisTool._run`) does not report the price change; that figure
is produced by the history computation (`StockHistoryTool._run`). -/
theorem analysis_omits_price_change_counterexample :
    analysisReport ⟨5, 1, 1, 10⟩ [⟨5, 1, 2, 10⟩] = analysisReport ⟨5, 1, 4, 10⟩ [⟨5, 1, 2, 10⟩]
    ∧ (historyReport ⟨5, 1, 1, 10⟩ [⟨5, 1, 2, 10⟩]).priceChange
      ≠ (historyReport ⟨5, 1, 4, 10⟩ [⟨5, 1, 2, 10⟩]).priceChange := by
  refine ⟨by decide, ?_⟩
  have hl1 : (historyReport ⟨5, 1, 1, 10⟩ [⟨5, 1, 2, 10⟩]).priceChange = 2 - 1 := rfl
  have hl2 : (historyReport ⟨5, 1, 4, 10⟩ [⟨5, 1, 2, 10⟩]).priceChange = 2 - 4 := rfl
  rw [hl1, hl2]
  norm_num

/-- C10 amended: it is the history computation (`StockHistoryTool._run`)
that reports, as its final step, the absolute price change
close(last) − close(first) and the percentage change equal to that delta
divided by close(first) (times 100). -/
theorem history_price_change (r : Row) (rs : List Row) :
    (historyReport r rs).priceChange
      = ((r :: rs).getLast (List.cons_ne_nil r rs)).close - r.close
    ∧ (historyReport r rs).percentChange
      = (((r :: rs).getLast (List.cons_ne_nil r rs)).close - r.close) / r.close * 100 :=
  ⟨rfl, rfl⟩
